import Mathlib

/-!
Verification of the agent-chain-optimizer-middleware adapter
(src/index.ts) against its natural-language specification.

The adapter is Express glue code: each exported function either
constructs an optimizer handle, attaches it to the request context,
or binds one optimizer method to an HTTP route with presence
validation and status-code selection.  We embed the adapter shallowly:

* JavaScript request-field values are modelled by `Value`, with JS
  truthiness (`!x`) modelled by `Value.truthy` / `jsTruthy`.
* The external `agent-chain-optimizer` library is an opaque
  collaborator; its observable behaviour is supplied by an
  `OptimizerEnv` and each `createOptimizer` call allocates a fresh
  handle identity (`oid`) by threading a counter, mirroring the fact
  that every JS call to the constructor returns a distinct object.
* Each route handler is a pure function from an optimizer handle and
  a request to a `HandlerResult`: the HTTP response, the (possibly
  mutated) request object, and the trace of optimizer-method calls
  the handler performed, in order.  The trace lets "operation X is
  (not) invoked" be stated directly.
-/

namespace ACOMiddleware

/-- A JavaScript value as it may appear in a request body field or a
route parameter: a string, an integer number, a boolean, or null.
(An absent field is `none` at the `Option Value` level, modelling
`undefined`.) -/
inductive Value where
  | str : String → Value
  | num : Int → Value
  | bool : Bool → Value
  | null : Value
deriving DecidableEq, Repr

/-- JS truthiness of a defined value: `""`, `0`, `false` and `null`
are falsy, everything else is truthy. -/
def Value.truthy : Value → Bool
  | Value.str s => s != ""
  | Value.num n => n != 0
  | Value.bool b => b
  | Value.null => false

/-- An execution record from the telemetry collector: an opaque record
with at least an `id` field (the opaque remainder is a `payload`). -/
structure Execution where
  id : String
  payload : Nat
deriving DecidableEq, Repr

/-- The telemetry collector reachable from the optimizer handle via
`getTelemetryCollector()`: it yields aggregated metrics and the list
of workflow executions. -/
structure TelemetryCollector where
  executions : List Execution
  metrics : Value

/-- An optimizer handle returned by the external library's
`createOptimizer`.  `oid` is the allocation identity distinguishing
handles from distinct constructor calls; `autoOptimize` records the
flag the adapter passed to the constructor; the remaining fields are
the opaque methods the adapter delegates to. -/
structure Optimizer where
  oid : Nat
  autoOptimize : Bool
  analyzeWorkflow : Value → Value
  optimizeWorkflow : Value → Value
  collector : TelemetryCollector
  analyzeExecutionCriticalPath : Execution → Value

/-- Behaviour of the opaque external library, used to populate the
method slots of every handle `createOptimizer` allocates. -/
structure OptimizerEnv where
  analyzeWorkflow : Value → Value
  optimizeWorkflow : Value → Value
  collector : TelemetryCollector
  analyzeExecutionCriticalPath : Execution → Value

/-- The external constructor `createOptimizer({autoOptimize})`:
allocates a fresh handle (identity `fresh`) and returns the bumped
allocation counter.  Modelled from the spec: the library is external
and opaque; only the constructor signature and the freshness of each
returned handle are relied upon. -/
def createOptimizer (env : OptimizerEnv) (autoOptimize : Bool) (fresh : Nat) :
    Optimizer × Nat :=
  (⟨fresh, autoOptimize, env.analyzeWorkflow, env.optimizeWorkflow,
    env.collector, env.analyzeExecutionCriticalPath⟩, fresh + 1)

/-- One optimizer-method invocation, as recorded in a handler trace. -/
inductive CallEvent where
  | analyzeWorkflow : Value → CallEvent
  | optimizeWorkflow : Value → CallEvent
  | getAggregatedMetrics : CallEvent
  | getWorkflowExecutions : CallEvent
  | analyzeExecutionCriticalPath : Execution → CallEvent
deriving DecidableEq, Repr

/-- A response body: either the JSON error object `{error: msg}` or a
pass-through JSON value from the optimizer. -/
inductive RespBody where
  | err : String → RespBody
  | json : Value → RespBody
deriving DecidableEq, Repr

/-- An HTTP response: status code and JSON body. -/
structure Response where
  status : Nat
  body : RespBody
deriving DecidableEq, Repr

/-- The request body fields the adapter destructures. -/
structure ReqBody where
  workflowId : Option Value
  workflow : Option Value

/-- The route parameters the adapter destructures. -/
structure ReqParams where
  executionId : Option Value

/-- The `WorkflowRequest` object: inbound body and params plus the
mutable fields the middleware and handlers attach. -/
structure WorkflowRequest where
  body : ReqBody
  params : ReqParams
  workflowOptimizer : Option Optimizer := none
  workflowAnalysis : Option Value := none
  criticalPath : Option Value := none

/-- Result of running one handler on one request: the response
written, the request object after any mutation, and the ordered trace
of optimizer-method calls made. -/
structure HandlerResult where
  resp : Response
  req : WorkflowRequest
  calls : List CallEvent

/-- JS strict equality `e.id === executionId` between the string `id`
of an execution record and the raw route-parameter value. -/
def strEqValue (s : String) (v : Value) : Bool :=
  match v with
  | Value.str t => s == t
  | _ => false

/-- Handler factory `createAnalyzeHandler(optimizer)`: destructure `workflowId` from
the body; if falsy respond 400, else call `analyzeWorkflow`, store
the analysis on the request, respond 200 with it. -/
def createAnalyzeHandler (optimizer : Optimizer) (req : WorkflowRequest) :
    HandlerResult :=
  match req.body.workflowId with
  | none => ⟨⟨400, RespBody.err "workflowId is required"⟩, req, []⟩
  | some workflowId =>
    if workflowId.truthy then
      let analysis := optimizer.analyzeWorkflow workflowId
      ⟨⟨200, RespBody.json analysis⟩,
       { req with workflowAnalysis := some analysis },
       [CallEvent.analyzeWorkflow workflowId]⟩
    else
      ⟨⟨400, RespBody.err "workflowId is required"⟩, req, []⟩

/-- Handler factory `createOptimizeHandler(optimizer)`: destructure `workflow` from
the body; if falsy respond 400, else call `optimizeWorkflow` and
respond 200 with the result. -/
def createOptimizeHandler (optimizer : Optimizer) (req : WorkflowRequest) :
    HandlerResult :=
  match req.body.workflow with
  | none => ⟨⟨400, RespBody.err "workflow is required"⟩, req, []⟩
  | some workflow =>
    if workflow.truthy then
      ⟨⟨200, RespBody.json (optimizer.optimizeWorkflow workflow)⟩, req,
       [CallEvent.optimizeWorkflow workflow]⟩
    else
      ⟨⟨400, RespBody.err "workflow is required"⟩, req, []⟩

/-- Handler factory `createMetricsHandler(optimizer)`: respond 200 with the telemetry
collector's aggregated metrics. -/
def createMetricsHandler (optimizer : Optimizer) (req : WorkflowRequest) :
    HandlerResult :=
  ⟨⟨200, RespBody.json optimizer.collector.metrics⟩, req,
   [CallEvent.getAggregatedMetrics]⟩

/-- Handler factory `createCriticalPathHandler(optimizer)`: destructure `executionId`
from the params; if falsy respond 400; else fetch the executions,
linearly search for a record with strictly-equal `id`; respond 404 if
none, else call `analyzeExecutionCriticalPath` on the found record
and respond 200 with the result. -/
def createCriticalPathHandler (optimizer : Optimizer) (req : WorkflowRequest) :
    HandlerResult :=
  match req.params.executionId with
  | none => ⟨⟨400, RespBody.err "executionId is required"⟩, req, []⟩
  | some executionId =>
    if executionId.truthy then
      let executions := optimizer.collector.executions
      match executions.find? (fun e => strEqValue e.id executionId) with
      | none =>
        ⟨⟨404, RespBody.err "Execution not found"⟩, req,
         [CallEvent.getWorkflowExecutions]⟩
      | some execution =>
        let criticalPath := optimizer.analyzeExecutionCriticalPath execution
        ⟨⟨200, RespBody.json criticalPath⟩, req,
         [CallEvent.getWorkflowExecutions,
          CallEvent.analyzeExecutionCriticalPath execution]⟩
    else
      ⟨⟨400, RespBody.err "executionId is required"⟩, req, []⟩

/-- An HTTP verb of the route table. -/
inductive Method where
  | get : Method
  | post : Method
deriving DecidableEq, Repr

/-- One entry of the route table: computed key, verb, bound handler. -/
structure RouteEntry where
  key : String
  method : Method
  handler : WorkflowRequest → HandlerResult

/-- Route table builder `setupOptimizerRoutes(optimizer, basePath = '/api/optimizer')`:
the object with the four computed keys, in source order. -/
def setupOptimizerRoutes (optimizer : Optimizer)
    (basePath : String := "/api/optimizer") : List RouteEntry :=
  [⟨basePath ++ "/analyze", Method.post, createAnalyzeHandler optimizer⟩,
   ⟨basePath ++ "/optimize", Method.post, createOptimizeHandler optimizer⟩,
   ⟨basePath ++ "/metrics", Method.get, createMetricsHandler optimizer⟩,
   ⟨basePath ++ "/critical-path/:executionId", Method.get,
    createCriticalPathHandler optimizer⟩]

/-- The optional `paths` block of `MiddlewareConfig`. -/
structure Paths where
  analyze : Option String := none
  optimize : Option String := none
  metrics : Option String := none
  criticalPath : Option String := none

/-- Configuration record `MiddlewareConfig`: optional auto-optimize flag and path block. -/
structure MiddlewareConfig where
  autoOptimize : Option Bool := none
  paths : Option Paths := none

/-- The value returned by `createOptimizerMiddleware`: a closure over
the optimizer it constructed.  Running it attaches that optimizer to
the request and passes control onward unconditionally. -/
structure Middleware where
  optimizer : Optimizer

/-- Applying the middleware closure to a request: sets
`req.workflowOptimizer` and calls `next()`. -/
def Middleware.run (m : Middleware) (req : WorkflowRequest) : WorkflowRequest :=
  { req with workflowOptimizer := some m.optimizer }

/-- Factory `createOptimizerMiddleware(config = {})`: constructs one handle
with `autoOptimize: config.autoOptimize ?? false` and returns the
attaching closure (the allocation counter is threaded through). -/
def createOptimizerMiddleware (env : OptimizerEnv) (config : MiddlewareConfig)
    (fresh : Nat) : Middleware × Nat :=
  let r := createOptimizer env (config.autoOptimize.getD false) fresh
  (⟨r.1⟩, r.2)

/-- Predicate `listStartsWith pat s` is true when `pat` occurs at the head of
`s` (helper for the JS `String.replace` model). -/
def listStartsWith : List Char → List Char → Bool
  | [], _ => true
  | _ :: _, [] => false
  | p :: ps, c :: cs => p == c && listStartsWith ps cs

/-- Remove the leftmost occurrence of `pat` from the character list,
or return the list unchanged when `pat` does not occur. -/
def removeFirstOcc (pat : List Char) : List Char → List Char
  | [] => []
  | c :: cs =>
    if listStartsWith pat (c :: cs) then (c :: cs).drop pat.length
    else c :: removeFirstOcc pat cs

/-- JS `s.replace(pat, '')` with a string pattern: removes only the
FIRST occurrence of `pat` in `s`, scanning left to right; `s` is
returned unchanged when `pat` does not occur. -/
def jsReplaceFirst (s pat : String) : String :=
  ⟨removeFirstOcc pat.data s.data⟩

/-- The base-path expression of `createOptimizerApp`, extracted as a
named function:
`config.paths?.analyze?.replace('/analyze', '') || '/api/optimizer'`.
The optional chain yields the default when `paths` or `analyze` is
absent, and `||` yields the default when the replaced string is empty
(the only falsy string). -/
def appBasePath (config : MiddlewareConfig) : String :=
  match config.paths.bind Paths.analyze with
  | none => "/api/optimizer"
  | some p =>
    let stripped := jsReplaceFirst p "/analyze"
    if stripped = "" then "/api/optimizer" else stripped

/-- The bundle returned by `createOptimizerApp`. -/
structure AppBundle where
  optimizer : Optimizer
  middleware : Middleware
  routes : List RouteEntry

/-- Factory `createOptimizerApp(config = {})`: constructs a handle with
`autoOptimize: config.autoOptimize ?? true`, then builds the bundle
whose middleware is `createOptimizerMiddleware(config)` (a second
`createOptimizer` call, hence a second handle) and whose routes are
`setupOptimizerRoutes` on the first handle at the derived base path. -/
def createOptimizerApp (env : OptimizerEnv) (config : MiddlewareConfig)
    (fresh : Nat) : AppBundle × Nat :=
  let r := createOptimizer env (config.autoOptimize.getD true) fresh
  let m := createOptimizerMiddleware env config r.2
  (⟨r.1, m.1, setupOptimizerRoutes r.1 (appBasePath config)⟩, m.2)

/-- Predicate `listEndsWith pat s`: `pat` occurs at the very end of
`s`. -/
def listEndsWith (pat s : List Char) : Bool :=
  listStartsWith pat.reverse s.reverse

/-- The base-path derivation exactly as claim C1 words it: strip a
trailing `/analyze` SUFFIX from the override if present, and use the
default `/api/optimizer` only when no override is given.  Written
from the claim's words, to be compared with `appBasePath`. -/
def claimC1BasePath (config : MiddlewareConfig) : String :=
  match config.paths.bind Paths.analyze with
  | none => "/api/optimizer"
  | some p =>
    if listEndsWith "/analyze".data p.data then
      ⟨p.data.take (p.data.length - "/analyze".data.length)⟩
    else p


/-! Concrete fixtures used by witnesses and counterexamples. -/

/-- A concrete external-library behaviour: one stored execution
`⟨"e1", 7⟩`, conjured opaque results for the delegated methods. -/
def envW : OptimizerEnv :=
  { analyzeWorkflow := fun _ => Value.str "analysis"
    optimizeWorkflow := fun _ => Value.str "optimized"
    collector := { executions := [⟨"e1", 7⟩], metrics := Value.str "metrics" }
    analyzeExecutionCriticalPath := fun e => Value.str e.id }

/-- A concrete optimizer handle over `envW`. -/
def oW : Optimizer := (createOptimizer envW false 0).1

/-- A request with no body fields and no route parameters. -/
def reqMissing : WorkflowRequest :=
  { body := { workflowId := none, workflow := none }
    params := { executionId := none } }

/-- A request whose body carries `workflowId = "wf-1"`. -/
def reqWf1 : WorkflowRequest :=
  { body := { workflowId := some (Value.str "wf-1"), workflow := none }
    params := { executionId := none } }

/-- A request whose fields are all present but hold the falsy `0`. -/
def reqFalsy : WorkflowRequest :=
  { body := { workflowId := some (Value.num 0), workflow := some (Value.num 0) }
    params := { executionId := some (Value.num 0) } }

/-- A request for the critical path of the unknown execution "ghost". -/
def reqGhost : WorkflowRequest :=
  { body := { workflowId := none, workflow := none }
    params := { executionId := some (Value.str "ghost") } }

/-- A request for the critical path of the stored execution "e1". -/
def reqE1 : WorkflowRequest :=
  { body := { workflowId := none, workflow := none }
    params := { executionId := some (Value.str "e1") } }

/-- An entirely defaulted configuration (`{}` at every call site). -/
def cfgDefault : MiddlewareConfig := {}

/-- A configuration whose analyze-path override has `/analyze` in a
non-trailing position. -/
def cfgNested : MiddlewareConfig :=
  { paths := some { analyze := some "/analyze/custom" } }

/-- A configuration whose analyze-path override ends in `/analyze`. -/
def cfgV1 : MiddlewareConfig :=
  { paths := some { analyze := some "/v1/analyze" } }

/-- A configuration whose analyze-path override is exactly `/analyze`. -/
def cfgAnalyzeOnly : MiddlewareConfig :=
  { paths := some { analyze := some "/analyze" } }

/-- When a filter leaves exactly one element, a linear `find?` with
the same predicate returns exactly that element. -/
theorem find?_of_filter_singleton {α : Type} (p : α → Bool) :
    ∀ (l : List α) (x : α), l.filter p = [x] → l.find? p = some x := by
  intro l
  induction l with
  | nil => intro x h; simp at h
  | cons a t ih =>
    intro x h
    cases hp : p a with
    | true =>
      rw [List.filter_cons_of_pos hp] at h
      rw [List.find?_cons_of_pos t hp]
      exact congrArg some (List.cons_eq_cons.mp h).1
    | false =>
      rw [List.filter_cons_of_neg (by simp [hp])] at h
      rw [List.find?_cons_of_neg t (by simp [hp])]
      exact ih x h

/-- Claim C3: for every request to the analyze handler whose body has
no `workflowId` field, the response is status 400 with body exactly
`{error: "workflowId is required"}`, the request object is unchanged,
and the call trace is empty — in particular `analyzeWorkflow` is
never invoked. -/
theorem analyze_missing_workflowId_rejected
    (o : Optimizer) (req : WorkflowRequest)
    (h : req.body.workflowId = none) :
    createAnalyzeHandler o req =
      ⟨⟨400, RespBody.err "workflowId is required"⟩, req, []⟩ := by
  simp [createAnalyzeHandler, h]

/-- Witness for C3 at the concrete request with an empty body. -/
theorem analyze_missing_workflowId_rejected_witness :
    createAnalyzeHandler oW reqMissing =
      ⟨⟨400, RespBody.err "workflowId is required"⟩, reqMissing, []⟩ :=
  analyze_missing_workflowId_rejected oW reqMissing rfl

/-- Claim C4: for every request to the analyze handler whose body
carries a workflow identifier (per the spec's data model, a non-empty
string), the handler invokes `analyzeWorkflow` with exactly that
identifier (call trace is that single event), stores the result on
the request's `workflowAnalysis` field, and responds 200 with the
unmodified result as JSON body. -/
theorem analyze_present_workflowId_ok
    (o : Optimizer) (req : WorkflowRequest) (s : String)
    (h : req.body.workflowId = some (Value.str s)) (hs : s ≠ "") :
    createAnalyzeHandler o req =
      ⟨⟨200, RespBody.json (o.analyzeWorkflow (Value.str s))⟩,
       { req with workflowAnalysis := some (o.analyzeWorkflow (Value.str s)) },
       [CallEvent.analyzeWorkflow (Value.str s)]⟩ := by
  simp [createAnalyzeHandler, h, Value.truthy, hs]

/-- Witness for C4 at `workflowId = "wf-1"`. -/
theorem analyze_present_workflowId_ok_witness :
    ("wf-1" : String) ≠ "" ∧
    createAnalyzeHandler oW reqWf1 =
      ⟨⟨200, RespBody.json (oW.analyzeWorkflow (Value.str "wf-1"))⟩,
       { reqWf1 with
          workflowAnalysis := some (oW.analyzeWorkflow (Value.str "wf-1")) },
       [CallEvent.analyzeWorkflow (Value.str "wf-1")]⟩ :=
  ⟨by decide, analyze_present_workflowId_ok oW reqWf1 "wf-1" rfl (by decide)⟩

/-- Claim C5: for every request to the critical-path handler whose
`executionId` parameter holds an identifier (a non-empty string) that
matches no execution in the telemetry collector's list, the response
is status 404 with body exactly `{error: "Execution not found"}`, and
the call trace holds only the executions fetch — in particular
`analyzeExecutionCriticalPath` is never invoked. -/
theorem criticalPath_not_found
    (o : Optimizer) (req : WorkflowRequest) (s : String)
    (h : req.params.executionId = some (Value.str s)) (hs : s ≠ "")
    (hmiss : ∀ e ∈ o.collector.executions, e.id ≠ s) :
    createCriticalPathHandler o req =
      ⟨⟨404, RespBody.err "Execution not found"⟩, req,
       [CallEvent.getWorkflowExecutions]⟩ := by
  have hfind : o.collector.executions.find?
      (fun e => strEqValue e.id (Value.str s)) = none := by
    rw [List.find?_eq_none]
    intro e he
    simpa [strEqValue] using hmiss e he
  simp [createCriticalPathHandler, h, Value.truthy, hs, hfind]

/-- Witness for C5 at the unknown identifier "ghost" against the
store holding only execution "e1". -/
theorem criticalPath_not_found_witness :
    ("ghost" : String) ≠ "" ∧
    (∀ e ∈ oW.collector.executions, e.id ≠ "ghost") ∧
    createCriticalPathHandler oW reqGhost =
      ⟨⟨404, RespBody.err "Execution not found"⟩, reqGhost,
       [CallEvent.getWorkflowExecutions]⟩ :=
  ⟨by decide, by decide,
   criticalPath_not_found oW reqGhost "ghost" rfl (by decide) (by decide)⟩

/-- Claim C6: for every request to the critical-path handler whose
`executionId` parameter holds an identifier (a non-empty string) such
that exactly one stored execution record matches it (the filter by
strict id equality leaves exactly `[ex]`), the handler invokes
`analyzeExecutionCriticalPath` with that exact record and responds
200 with its result as JSON body. -/
theorem criticalPath_unique_match
    (o : Optimizer) (req : WorkflowRequest) (s : String) (ex : Execution)
    (h : req.params.executionId = some (Value.str s)) (hs : s ≠ "")
    (huniq : o.collector.executions.filter
        (fun e => strEqValue e.id (Value.str s)) = [ex]) :
    createCriticalPathHandler o req =
      ⟨⟨200, RespBody.json (o.analyzeExecutionCriticalPath ex)⟩, req,
       [CallEvent.getWorkflowExecutions,
        CallEvent.analyzeExecutionCriticalPath ex]⟩ := by
  have hfind := find?_of_filter_singleton
    (fun e => strEqValue e.id (Value.str s)) o.collector.executions ex huniq
  simp [createCriticalPathHandler, h, Value.truthy, hs, hfind]

/-- Witness for C6 at identifier "e1", whose unique match in the
store is the record `⟨"e1", 7⟩`. -/
theorem criticalPath_unique_match_witness :
    ("e1" : String) ≠ "" ∧
    oW.collector.executions.filter
        (fun e => strEqValue e.id (Value.str "e1")) = [⟨"e1", 7⟩] ∧
    createCriticalPathHandler oW reqE1 =
      ⟨⟨200, RespBody.json (oW.analyzeExecutionCriticalPath ⟨"e1", 7⟩)⟩, reqE1,
       [CallEvent.getWorkflowExecutions,
        CallEvent.analyzeExecutionCriticalPath ⟨"e1", 7⟩]⟩ :=
  ⟨by decide, by decide,
   criticalPath_unique_match oW reqE1 "e1" ⟨"e1", 7⟩ rfl (by decide) (by decide)⟩

/-- Claim C9: the presence checks of the analyze, optimize and
critical-path handlers are JS falsiness checks: a field that is
present but falsy (empty string, `0`, `false` or `null` — exactly the
falsy cases of `Value.truthy`) draws the same 400 error response as
an absent field, with no optimizer method invoked. -/
theorem falsy_present_fields_rejected
    (o : Optimizer) (v : Value) (hv : v.truthy = false)
    (r1 r2 r3 : WorkflowRequest)
    (h1 : r1.body.workflowId = some v)
    (h2 : r2.body.workflow = some v)
    (h3 : r3.params.executionId = some v) :
    createAnalyzeHandler o r1 =
      ⟨⟨400, RespBody.err "workflowId is required"⟩, r1, []⟩
    ∧ createOptimizeHandler o r2 =
      ⟨⟨400, RespBody.err "workflow is required"⟩, r2, []⟩
    ∧ createCriticalPathHandler o r3 =
      ⟨⟨400, RespBody.err "executionId is required"⟩, r3, []⟩
    ∧ (Value.str "").truthy = false ∧ (Value.num 0).truthy = false
    ∧ (Value.bool false).truthy = false ∧ Value.null.truthy = false := by
  refine ⟨?_, ?_, ?_, by decide, by decide, by decide, by decide⟩
  · simp [createAnalyzeHandler, h1, hv]
  · simp [createOptimizeHandler, h2, hv]
  · simp [createCriticalPathHandler, h3, hv]

/-- Witness for C9 at the falsy value `0` present in all three
positions of a concrete request. -/
theorem falsy_present_fields_rejected_witness :
    (Value.num 0).truthy = false ∧
    (createAnalyzeHandler oW reqFalsy =
      ⟨⟨400, RespBody.err "workflowId is required"⟩, reqFalsy, []⟩
    ∧ createOptimizeHandler oW reqFalsy =
      ⟨⟨400, RespBody.err "workflow is required"⟩, reqFalsy, []⟩
    ∧ createCriticalPathHandler oW reqFalsy =
      ⟨⟨400, RespBody.err "executionId is required"⟩, reqFalsy, []⟩
    ∧ (Value.str "").truthy = false ∧ (Value.num 0).truthy = false
    ∧ (Value.bool false).truthy = false ∧ Value.null.truthy = false) :=
  ⟨by decide, falsy_present_fields_rejected oW (Value.num 0) (by decide)
    reqFalsy reqFalsy reqFalsy rfl rfl rfl⟩

/-- Claim C7: for every optimizer handle, the route table built by
`setupOptimizerRoutes` for base path "/custom" has exactly four
entries, keyed "/custom/analyze" (post), "/custom/optimize" (post),
"/custom/metrics" (get) and "/custom/critical-path/:executionId"
(get).  Determinism and freedom from side effects are inherent to the
embedding: `setupOptimizerRoutes` is a pure function of its two
arguments. -/
theorem routes_for_custom_base (o : Optimizer) :
    (setupOptimizerRoutes o "/custom").map (fun r => (r.key, r.method)) =
      [("/custom/analyze", Method.post), ("/custom/optimize", Method.post),
       ("/custom/metrics", Method.get),
       ("/custom/critical-path/:executionId", Method.get)]
    ∧ (setupOptimizerRoutes o "/custom").length = 4 :=
  ⟨rfl, rfl⟩

/-- Claim C8: the bundle returned by `createOptimizerApp` holds two
distinct optimizer handles.  The middleware's handle comes from a
second `createOptimizer` call (allocation identity differs from the
bundle's `optimizer` field), the middleware attaches exactly its own
handle to each request context, and the route handlers are bound to
the bundle's `optimizer` handle. -/
theorem app_two_distinct_handles
    (env : OptimizerEnv) (config : MiddlewareConfig) (n : Nat)
    (req : WorkflowRequest) :
    ((createOptimizerApp env config n).1.middleware.optimizer.oid
        ≠ (createOptimizerApp env config n).1.optimizer.oid)
    ∧ ((createOptimizerApp env config n).1.middleware.run req).workflowOptimizer
        = some (createOptimizerApp env config n).1.middleware.optimizer
    ∧ (createOptimizerApp env config n).1.routes
        = setupOptimizerRoutes (createOptimizerApp env config n).1.optimizer
            (appBasePath config) := by
  refine ⟨?_, rfl, rfl⟩
  show n + 1 ≠ n
  exact Nat.succ_ne_self n

/-- Counterexample to claim C2 as stated: with the flag omitted
(`cfgDefault`), the handle used by the middleware that
`createOptimizerApp` returns has `autoOptimize = false`, not `true` —
the factory forwards its config to `createOptimizerMiddleware`, whose
default is `false`. -/
theorem app_middleware_autoOptimize_counterexample :
    (createOptimizerApp envW cfgDefault 0).1.middleware.optimizer.autoOptimize
      = false
    ∧ ¬ ((createOptimizerApp envW cfgDefault 0).1.middleware.optimizer.autoOptimize
      = true)
    ∧ (createOptimizerApp envW cfgDefault 0).1.optimizer.autoOptimize = true :=
  ⟨rfl, by decide, rfl⟩

/-- Claim C2 as amended: with the auto-optimize flag omitted, the
standalone middleware's handle defaults to `false`; the app factory's
own handle (exposed as the bundle's `optimizer` field and bound into
the route handlers) defaults to `true`; but the handle constructed
for the factory's middleware again defaults to `false`. -/
theorem autoOptimize_defaults
    (env : OptimizerEnv) (config : MiddlewareConfig) (n : Nat)
    (h : config.autoOptimize = none) :
    (createOptimizerMiddleware env config n).1.optimizer.autoOptimize = false
    ∧ (createOptimizerApp env config n).1.optimizer.autoOptimize = true
    ∧ (createOptimizerApp env config n).1.middleware.optimizer.autoOptimize
      = false := by
  refine ⟨?_, ?_, ?_⟩ <;>
    simp [createOptimizerMiddleware, createOptimizerApp, createOptimizer, h]

/-- Witness for the amended C2 at the fully defaulted configuration. -/
theorem autoOptimize_defaults_witness :
    cfgDefault.autoOptimize = none ∧
    ((createOptimizerMiddleware envW cfgDefault 0).1.optimizer.autoOptimize
       = false
    ∧ (createOptimizerApp envW cfgDefault 0).1.optimizer.autoOptimize = true
    ∧ (createOptimizerApp envW cfgDefault 0).1.middleware.optimizer.autoOptimize
       = false) :=
  ⟨rfl, autoOptimize_defaults envW cfgDefault 0 rfl⟩

/-- Counterexample to claim C1 as stated: for the override
"/analyze/custom", which has no trailing "/analyze" suffix, the
claim's derivation (`claimC1BasePath`) leaves the override unchanged,
but the code removes the FIRST occurrence of the substring and bases
the returned route table at "/custom". -/
theorem basePath_strip_counterexample :
    appBasePath cfgNested = "/custom"
    ∧ claimC1BasePath cfgNested = "/analyze/custom"
    ∧ appBasePath cfgNested ≠ claimC1BasePath cfgNested
    ∧ (createOptimizerApp envW cfgNested 0).1.routes.map RouteEntry.key =
        ["/custom/analyze", "/custom/optimize", "/custom/metrics",
         "/custom/critical-path/:executionId"] :=
  ⟨by decide, by decide, by decide, by decide⟩

/-- Claim C1 as amended: the base path of the route table returned by
`createOptimizerApp` is the analyze-path override with the FIRST
occurrence of the substring "/analyze" removed (JS
`String.replace` with a string pattern — this agrees with stripping a
trailing suffix exactly when the first occurrence is the trailing
one), with the default "/api/optimizer" used when no override is
given or when the removal leaves the empty string. -/
theorem appBasePath_spec
    (env : OptimizerEnv) (config : MiddlewareConfig) (n : Nat) :
    (createOptimizerApp env config n).1.routes =
      setupOptimizerRoutes (createOptimizerApp env config n).1.optimizer
        (appBasePath config)
    ∧ (config.paths.bind Paths.analyze = none →
        appBasePath config = "/api/optimizer")
    ∧ (∀ p, config.paths.bind Paths.analyze = some p →
        appBasePath config =
          (if jsReplaceFirst p "/analyze" = "" then "/api/optimizer"
           else jsReplaceFirst p "/analyze")) := by
  refine ⟨rfl, ?_, ?_⟩
  · intro h; simp [appBasePath, h]
  · intro p h; simp [appBasePath, h]

/-- Witness for the amended C1 at the override "/v1/analyze", whose
first "/analyze" occurrence is the trailing one: the base path is
"/v1". -/
theorem appBasePath_spec_witness :
    cfgV1.paths.bind Paths.analyze = some "/v1/analyze"
    ∧ appBasePath cfgV1 =
        (if jsReplaceFirst "/v1/analyze" "/analyze" = "" then "/api/optimizer"
         else jsReplaceFirst "/v1/analyze" "/analyze")
    ∧ appBasePath cfgV1 = "/v1" :=
  ⟨rfl, (appBasePath_spec envW cfgV1 0).2.2 "/v1/analyze" rfl, by decide⟩

/-- Claim C10: when the analyze-path override is exactly "/analyze",
removing the substring leaves the empty string — which is falsy, so
the `||` fallback bases the route table at the default
"/api/optimizer". -/
theorem analyze_override_falls_back_to_default :
    jsReplaceFirst "/analyze" "/analyze" = ""
    ∧ appBasePath cfgAnalyzeOnly = "/api/optimizer"
    ∧ (createOptimizerApp envW cfgAnalyzeOnly 0).1.routes.map RouteEntry.key =
        ["/api/optimizer/analyze", "/api/optimizer/optimize",
         "/api/optimizer/metrics", "/api/optimizer/critical-path/:executionId"] :=
  ⟨by decide, by decide, by decide⟩

end ACOMiddleware
